import Mathlib

/-!
Verification development for the f06tools repository: a shallow embedding of
the F06 block-decoding engine (flavours, line lexing, row blocks, the
per-block-type decoder state machines, block finalisation and merging),
together with theorems settling the specification claims.

Scalars are modelled as exact decimal literals with a rational valuation: the
decoders only ever move parsed decimal literals around, never compute with
them, so this is a faithful model of the numeric payload.
-/

/-- Modelled from the spec: the known solver dialects (the `Solver` enum of the
`flavour` module, which is not under `src/`; its variants `Mystran` and
`Simcenter` are named throughout `decoders.rs`). -/
inductive Solver
| Mystran
| Simcenter
deriving DecidableEq, Repr

/-- Modelled from the spec: a flavour is an optional solver dialect plus an
optional solution type; only the solver field is consulted by the decoders
under `src/`, so the solution type is left abstract as an optional tag. -/
structure Flavour where
  solver : Option Solver
  soltype : Option Nat
deriving DecidableEq, Repr

/-- A grid point reference: a natural-number id. -/
structure GridPointRef where
  gid : Nat
deriving DecidableEq, Repr

/-- Modelled from the spec: element-type hints that can appear in headers and
data lines (the `ElementType` enum lives in the `elements` module, which is
not under `src/`; the variants used by the block registry are QUAD4, TRIA3,
ROD, BAR and ELAS1). -/
inductive ElementType
| Quad4
| Tria3
| Rod
| Bar
| Elas1
deriving DecidableEq, Repr

/-- An element reference: an id plus an optional element-type hint. -/
structure ElementRef where
  eid : Nat
  etype : Option ElementType
deriving DecidableEq, Repr

/-- A point within an element: its centroid or one of its corners. -/
inductive ElementPoint
| Centroid
| Corner (gp : GridPointRef)
deriving DecidableEq, Repr

/-- The side (top/bottom) of a 2D element. -/
inductive ElementSide
| Top
| Bottom
deriving DecidableEq, Repr

/-- An element, a point within it, and a side. -/
structure ElementSidedPoint where
  element : ElementRef
  point : ElementPoint
  side : ElementSide
deriving DecidableEq, Repr

/-- Flips the side of an element-sided point (used for continuation lines). -/
def ElementSidedPoint.flipSide (esp : ElementSidedPoint) : ElementSidedPoint :=
  { esp with side := match esp.side with
    | ElementSide.Top => ElementSide.Bottom
    | ElementSide.Bottom => ElementSide.Top }

/-- The six degrees of freedom. -/
inductive Dof
| T1
| T2
| T3
| R1
| R2
| R3
deriving DecidableEq, Repr

/-- All six degrees of freedom, in canonical construction order. -/
def Dof.all : List Dof := [Dof.T1, Dof.T2, Dof.T3, Dof.R1, Dof.R2, Dof.R3]

/-- The origin of a force in a grid point force balance block. -/
inductive ForceOrigin
| Load
| SinglePointConstraint
| MultiPointConstraint
| Element (elem : ElementRef)
deriving DecidableEq, Repr

/-- A row key for grid point force balance: grid point plus force origin. -/
structure GridPointForceOrigin where
  grid_point : GridPointRef
  force_origin : ForceOrigin
deriving DecidableEq, Repr

/-- The columns of a quad stresses block. -/
inductive QuadStressField
| FibreDistance
| NormalX
| NormalY
| ShearXY
| Angle
| Major
| Minor
| VonMises
deriving DecidableEq, Repr

/-- The columns of a quad strains block. -/
inductive QuadStrainField
| FibreDistance
| NormalX
| NormalY
| ShearXY
| Angle
| Major
| Minor
| VonMises
deriving DecidableEq, Repr

/-- The stress-to-strain column tag conversion (the `From<QuadStressField>`
impl used by `QuadStrainsDecoder::unwrap`). -/
def QuadStrainField.ofStress : QuadStressField → QuadStrainField
| QuadStressField.FibreDistance => QuadStrainField.FibreDistance
| QuadStressField.NormalX => QuadStrainField.NormalX
| QuadStressField.NormalY => QuadStrainField.NormalY
| QuadStressField.ShearXY => QuadStrainField.ShearXY
| QuadStressField.Angle => QuadStrainField.Angle
| QuadStressField.Major => QuadStrainField.Major
| QuadStressField.Minor => QuadStrainField.Minor
| QuadStressField.VonMises => QuadStrainField.VonMises

/-- The tagged union of all row/column index values (`NasIndex`). -/
inductive NasIndex
| gp (g : GridPointRef)
| elem (e : ElementRef)
| esp (p : ElementSidedPoint)
| dof (d : Dof)
| qsf (f : QuadStressField)
| qnf (f : QuadStrainField)
| gpfo (o : GridPointForceOrigin)
deriving DecidableEq, Repr

/-- The response of a block decoder to one consumed line. -/
inductive LineResponse
| Done
| Data
| Metadata
| Useless
| Abort
| BadFlavour
deriving DecidableEq, Repr

/-! ## Line lexing

The helpers `extract_reals`, `nth_integer`, `nth_etype` and `line_breakdown`
live in the `util` module, which is not under `src/`.  They are modelled from
the spec here: a line is broken into whitespace-separated fields, each field
classified as an integer, a real number, or an unrecognised word; a line
yields data exactly when it carries the expected fixed count of parseable
reals, and leading integers identify row keys. -/

/-- An exact decimal literal, the model of a parsed real number: the value is
`man * 10 ^ exp`.  The source stores these as floating-point numbers; the
decoders never compute with them, only move them around, so an exact decimal
representation is a faithful model of the numeric payload. -/
structure DecLit where
  man : Int
  exp : Int
deriving DecidableEq, Repr

/-- The rational value of a decimal literal. -/
def DecLit.toRat (d : DecLit) : ℚ :=
  (d.man : ℚ) * (10 : ℚ) ^ d.exp

/-- A classified field of a report line. -/
inductive LineField
| int (i : Int)
| flt (q : DecLit)
| noIdea (s : String)
deriving DecidableEq, Repr

/-- True when every character of the list is a decimal digit. -/
def allDigits (cs : List Char) : Bool :=
  cs.all (fun c => c.isDigit)

/-- Numeric value of a list of decimal digit characters. -/
def digitsVal (cs : List Char) : Nat :=
  cs.foldl (fun acc c => 10 * acc + (c.toNat - 48)) 0

/-- Modelled from the spec: parses a field as a (signed) integer, if it is one:
an optional sign followed by one or more digits. -/
def parseIntTok (cs : List Char) : Option Int :=
  match cs with
  | [] => none
  | c :: rest =>
    if c = '-' then
      if rest ≠ [] ∧ allDigits rest then some (-(digitsVal rest : Int)) else none
    else if c = '+' then
      if rest ≠ [] ∧ allDigits rest then some (digitsVal rest : Int) else none
    else
      if allDigits cs then some (digitsVal cs : Int) else none

/-- Splits a digit sequence, a dot, and a digit sequence out of a mantissa. -/
def splitMantissa (cs : List Char) : Option (List Char × List Char) :=
  match cs.splitOn '.' with
  | [ip, fp] => if allDigits ip ∧ allDigits fp ∧ (ip ≠ [] ∨ fp ≠ []) then
      some (ip, fp) else none
  | _ => none

/-- Value of a mantissa as a decimal literal: the integer and fractional
digits joined, with a decimal exponent shifting the point back. -/
def mantissaVal (sgn : Int) (ip fp : List Char) : DecLit :=
  ⟨sgn * ((digitsVal ip * 10 ^ fp.length + digitsVal fp : Nat) : Int),
   -(fp.length : Int)⟩

/-- Modelled from the spec: parses a field as a real-number literal, if it is
one: an optional sign, a mantissa containing a decimal point, and an optional
exponent introduced by `E` or `e`.  A bare integer is not a real: the fixed
column count of reals on a data line must not swallow the row-key id. -/
def parseRealTok (cs : List Char) : Option DecLit :=
  let (sgn, body) : Int × List Char :=
    match cs with
    | '-' :: rest => (-1, rest)
    | '+' :: rest => (1, rest)
    | _ => (1, cs)
  let applyExp : List Char → Option DecLit := fun mant =>
    (splitMantissa mant).map (fun (p : List Char × List Char) =>
      mantissaVal sgn p.1 p.2)
  match body.splitOn 'E' with
  | [mant, expo] => match parseIntTok expo, applyExp mant with
    | some e, some m => some ⟨m.man, m.exp + e⟩
    | _, _ => none
  | [_] => match body.splitOn 'e' with
    | [mant, expo] => match parseIntTok expo, applyExp mant with
      | some e, some m => some ⟨m.man, m.exp + e⟩
      | _, _ => none
    | _ => applyExp body
  | _ => none

/-- Classifies one whitespace-delimited field. -/
def classifyField (s : String) : LineField :=
  match parseIntTok s.toList with
  | some i => LineField.int i
  | none => match parseRealTok s.toList with
    | some q => LineField.flt q
    | none => LineField.noIdea s

/-- Splits a character list into whitespace-separated words. -/
def splitWords (cs : List Char) : List (List Char) :=
  let step : Char → List (List Char) → List (List Char) := fun c acc =>
    if c = ' ' ∨ c = '\t' then
      match acc with
      | [] :: _ => acc
      | _ => [] :: acc
    else
      match acc with
      | w :: rest => (c :: w) :: rest
      | [] => [[c]]
  ((cs.foldr step []).filter (fun w => w ≠ []))

/-- Modelled from the spec: `line_breakdown` — the classified fields of a
line, in order. -/
def lineBreakdown (line : String) : List LineField :=
  (splitWords line.toList).map (fun w => classifyField (String.mk w))

/-- The real-number fields of a line, in order. -/
def realsOf (line : String) : List DecLit :=
  (lineBreakdown line).filterMap (fun f =>
    match f with
    | LineField.flt q => some q
    | _ => none)

/-- Modelled from the spec: `extract_reals` — a line is tested for a fixed
count of parseable real numbers; if the count does not match, nothing is
returned. -/
def extractReals (w : Nat) (line : String) : Option (List DecLit) :=
  let rs := realsOf line
  if rs.length = w then some rs else none

/-- The integer fields of a line, in order. -/
def intsOf (line : String) : List Int :=
  (lineBreakdown line).filterMap (fun f =>
    match f with
    | LineField.int i => some i
    | _ => none)

/-- Modelled from the spec: `nth_integer` — the n-th integer field. -/
def nthInteger (line : String) (n : Nat) : Option Int :=
  (intsOf line).get? n

/-- The element-type name words recognised in lines and headers. -/
def etypeOfWord (s : String) : Option ElementType :=
  if s = "QUAD4" then some ElementType.Quad4
  else if s = "TRIA3" then some ElementType.Tria3
  else if s = "ROD" then some ElementType.Rod
  else if s = "BAR" then some ElementType.Bar
  else if s = "ELAS1" then some ElementType.Elas1
  else none

/-- Modelled from the spec: `nth_etype` — the n-th field naming a known
element type. -/
def nthEtype (line : String) (n : Nat) : Option ElementType :=
  ((splitWords line.toList).filterMap
    (fun w => etypeOfWord (String.mk w))).get? n

/-- True when `pat` occurs as a contiguous run inside `cs`
(the model of Rust's `str::contains`). -/
def hasRun (cs pat : List Char) : Bool :=
  match cs with
  | [] => decide (pat = [])
  | _ :: rest => pat.isPrefixOf cs || hasRun rest pat

/-- String containment, `line.contains(pat)` in the source. -/
def strHas (line pat : String) : Bool :=
  hasRun line.toList pat.toList

/-- Dashes that signal the end of a table in MYSTRAN (`MYSTRAN_DASHES`). -/
def mystranDashes : String := "-------------"

/-! ## Block types

The registry in `blocks/types.rs` declares twenty block types with their
header signatures and decoder factories. -/

/-- All the known data blocks (the `BlockType` enum of `blocks/types.rs`). -/
inductive BlockType
| Displacements
| GridPointForceBalance
| SpcForces
| AppliedForces
| QuadStresses
| QuadStrains
| QuadForces
| TriaForces
| RodForces
| BarForces
| Elas1Forces
| TriaStresses
| TriaStrains
| RodStresses
| RodStrains
| BarStresses
| BarStrains
| Elas1Stresses
| Elas1Strains
deriving DecidableEq, Repr

/-- All known block types, in declaration order (`BlockType::all`). -/
def BlockType.all : List BlockType :=
  [BlockType.Displacements, BlockType.GridPointForceBalance,
   BlockType.SpcForces, BlockType.AppliedForces, BlockType.QuadStresses,
   BlockType.QuadStrains, BlockType.QuadForces, BlockType.TriaForces,
   BlockType.RodForces, BlockType.BarForces, BlockType.Elas1Forces,
   BlockType.TriaStresses, BlockType.TriaStrains, BlockType.RodStresses,
   BlockType.RodStrains, BlockType.BarStresses, BlockType.BarStrains,
   BlockType.Elas1Stresses, BlockType.Elas1Strains]

/-- The known upper-case header forms that signal the beginning of each block
(`BlockType::headers`). -/
def BlockType.headers : BlockType → List String
| BlockType.Displacements => ["DISPLACEMENTS", "DISPLACEMENT VECTOR"]
| BlockType.GridPointForceBalance => ["GRID POINT FORCE BALANCE"]
| BlockType.SpcForces => ["SPC FORCES", "FORCES OF SINGLE-POINT CONSTRAINT"]
| BlockType.AppliedForces => ["APPLIED FORCES", "LOAD VECTOR"]
| BlockType.QuadStresses =>
  ["STRESSES IN QUADRILATERAL ELEMENTS",
   "ELEMENT STRESSES IN LOCAL ELEMENT COORDINATE SYSTEM FOR ELEMENT TYPE QUAD4"]
| BlockType.QuadStrains =>
  ["STRAINS IN QUADRILATERAL ELEMENTS",
   "ELEMENT STRAINS IN LOCAL ELEMENT COORDINATE SYSTEM FOR ELEMENT TYPE QUAD4"]
| BlockType.QuadForces =>
  ["FORCES IN QUADRILATERAL ELEMENTS",
   "ELEMENT ENGINEERING FORCES FOR ELEMENT TYPE QUAD4"]
| BlockType.TriaForces =>
  ["FORCES IN TRIANGULAR ELEMENTS",
   "ELEMENT ENGINEERING FORCES FOR ELEMENT TYPE TRIA3"]
| BlockType.RodForces =>
  ["FORCES IN ROD ELEMENTS", "ELEMENT ENGINEERING FORCES FOR ELEMENT TYPE ROD"]
| BlockType.BarForces =>
  ["FORCES IN BAR ELEMENTS", "ELEMENT ENGINEERING FORCES FOR ELEMENT TYPE BAR"]
| BlockType.Elas1Forces =>
  ["FORCES IN SCALAR SPRINGS (CELAS1)",
   "ELEMENT ENGINEERING FORCES FOR ELEMENT TYPE ELAS1"]
| BlockType.TriaStresses =>
  ["STRESSES IN TRIANGULAR ELEMENTS (TRIA3)",
   "ELEMENT STRESSES IN LOCAL ELEMENT COORDINATE SYSTEM FOR ELEMENT TYPE TRIA3"]
| BlockType.TriaStrains =>
  ["STRAINS IN TRIANGULAR ELEMENTS (TRIA3)",
   "ELEMENT STRAINS IN LOCAL ELEMENT COORDINATE SYSTEM FOR ELEMENT TYPE TRIA3"]
| BlockType.RodStresses =>
  ["STRESSES IN ROD ELEMENTS (CROD)",
   "ELEMENT STRESSES IN LOCAL ELEMENT COORDINATE SYSTEM FOR ELEMENT TYPE ROD"]
| BlockType.RodStrains =>
  ["STRAINS IN ROD ELEMENTS (CROD)",
   "ELEMENT STRAINS IN LOCAL ELEMENT COORDINATE SYSTEM FOR ELEMENT TYPE ROD"]
| BlockType.BarStresses =>
  ["STRESSES IN BAR ELEMENTS (CBAR)",
   "ELEMENT STRESSES IN LOCAL ELEMENT COORDINATE SYSTEM FOR ELEMENT TYPE BAR"]
| BlockType.BarStrains =>
  ["STRAINS IN BAR ELEMENTS (CBAR)",
   "ELEMENT STRAINS IN LOCAL ELEMENT COORDINATE SYSTEM FOR ELEMENT TYPE BAR"]
| BlockType.Elas1Stresses =>
  ["STRESSES IN SCALAR SPRINGS (CELAS1)",
   "ELEMENT STRESSES IN LOCAL ELEMENT COORDINATE SYSTEM FOR ELEMENT TYPE ELAS1"]
| BlockType.Elas1Strains =>
  ["STRAINS IN SCALAR SPRINGS (CELAS1)",
   "ELEMENT STRAINS IN LOCAL ELEMENT COORDINATE SYSTEM FOR ELEMENT TYPE ELAS1"]

/-! ## RowBlock and FinalBlock

The `RowBlock` container and `FinalBlock` result type live in `blocks/mod.rs`,
which is not under `src/`; they are modelled from the spec: a RowBlock owns a
fixed column-key-to-position mapping and a growable mapping from row keys to
rows of scalars, re-insertion at an existing row key overwrites that row
(last write wins); finalisation produces an immutable block tagged with block
type, subcase and optional line range, queryable by row and column index.
Mappings are modelled as association lists; the source keeps them in ordered
maps, so the model treats the key set, not the entry order, as meaningful. -/

/-- Modelled from the spec: a finalized, immutable block of data. -/
structure FinalBlock where
  block_type : BlockType
  subcase : Nat
  line_range : Option (Nat × Nat)
  col_indexes : List (NasIndex × Nat)
  rows : List (NasIndex × List DecLit)
deriving DecidableEq, Repr

/-- Inserts a value at a key into an association list, overwriting the first
occurrence of the key if present, appending otherwise. -/
def assocInsert {K V : Type} [DecidableEq K] (l : List (K × V)) (k : K)
    (v : V) : List (K × V) :=
  match l with
  | [] => [(k, v)]
  | (k0, v0) :: rest =>
    if k0 = k then (k, v) :: rest else (k0, v0) :: assocInsert rest k v

/-- Looks a key up in an association list. -/
def assocGet {K V : Type} [DecidableEq K] (l : List (K × V)) (k : K) :
    Option V :=
  match l with
  | [] => none
  | (k0, v0) :: rest => if k0 = k then some v0 else assocGet rest k

/-- Modelled from the spec: the accumulating container mapping row keys to
rows of scalars, with a fixed column-key-to-position mapping. -/
structure RowBlock (R C : Type) where
  col_indexes : List (C × Nat)
  rows : List (R × List DecLit)

/-- Creates a row block with the given column mapping (`RowBlock::new`). -/
def RowBlock.new {R C : Type} (cols : List (C × Nat)) : RowBlock R C :=
  { col_indexes := cols, rows := [] }

/-- Inserts a row at a key, overwriting any prior row at that key
(`RowBlock::insert_raw`; last write wins). -/
def RowBlock.insertRaw {R C : Type} [DecidableEq R] (rb : RowBlock R C)
    (k : R) (vals : List DecLit) : RowBlock R C :=
  { rb with rows := assocInsert rb.rows k vals }

/-- Modelled from the spec: finalisation into an immutable block
(`RowBlock::finalise`); the row and column keys are injected into the
`NasIndex` union. -/
def RowBlock.finalise {R C : Type} (rb : RowBlock R C) (bt : BlockType)
    (subcase : Nat) (lineRange : Option (Nat × Nat)) (rIx : R → NasIndex)
    (cIx : C → NasIndex) : FinalBlock :=
  { block_type := bt, subcase := subcase, line_range := lineRange,
    col_indexes := rb.col_indexes.map (fun p => (cIx p.1, p.2)),
    rows := rb.rows.map (fun p => (rIx p.1, p.2)) }

/-- Column indexes for DOFs (`dof_cols`): each degree of freedom mapped to
its enumeration position. -/
def dofCols : List (Dof × Nat) :=
  Dof.all.enum.map (fun p => (p.2, p.1))

/-- Column indexes for quad stresses and strains (`quad_stress_cols`). -/
def quadStressCols : List (QuadStressField × Nat) :=
  [QuadStressField.FibreDistance, QuadStressField.NormalX,
   QuadStressField.NormalY, QuadStressField.ShearXY, QuadStressField.Angle,
   QuadStressField.Major, QuadStressField.Minor,
   QuadStressField.VonMises].enum.map (fun p => (p.2, p.1))

/-- The number of degrees of freedom (`SIXDOF`). -/
def SIXDOF : Nat := 6

/-! ## Decoders

These mirror `blocks/decoders.rs` under `src/` line by line.  Each decoder is
a structure holding the decoder state; `consume` returns the updated state
together with the `LineResponse`. -/

/-- This decodes a displacements block (`DisplacementsDecoder`). -/
structure DisplacementsDecoder where
  flavour : Flavour
  data : RowBlock GridPointRef Dof

/-- Constructs a displacements decoder (`DisplacementsDecoder::new`). -/
def DisplacementsDecoder.new (flavour : Flavour) : DisplacementsDecoder :=
  { flavour := flavour, data := RowBlock.new dofCols }

/-- Finalisation of a displacements decoder (`DisplacementsDecoder::unwrap`). -/
def DisplacementsDecoder.unwrap (d : DisplacementsDecoder) (subcase : Nat)
    (lineRange : Option (Nat × Nat)) : FinalBlock :=
  d.data.finalise BlockType.Displacements subcase lineRange NasIndex.gp
    NasIndex.dof

/-- Line consumption for displacements (`DisplacementsDecoder::consume`). -/
def DisplacementsDecoder.consume (d : DisplacementsDecoder) (line : String) :
    DisplacementsDecoder × LineResponse :=
  if strHas line mystranDashes then (d, LineResponse.Done)
  else match extractReals SIXDOF line with
  | none => (d, LineResponse.Useless)
  | some dofs => match nthInteger line 0 with
    | some gid =>
      ({ d with data := d.data.insertRaw ⟨gid.toNat⟩ dofs },
       LineResponse.Data)
    | none => (d, LineResponse.Useless)

/-- Decoder for the SPC forces block type (`SpcForcesDecoder`). -/
structure SpcForcesDecoder where
  flavour : Flavour
  data : RowBlock GridPointRef Dof

/-- Constructs an SPC forces decoder (`SpcForcesDecoder::new`). -/
def SpcForcesDecoder.new (flavour : Flavour) : SpcForcesDecoder :=
  { flavour := flavour, data := RowBlock.new dofCols }

/-- Finalisation of an SPC forces decoder (`SpcForcesDecoder::unwrap`). -/
def SpcForcesDecoder.unwrap (d : SpcForcesDecoder) (subcase : Nat)
    (lineRange : Option (Nat × Nat)) : FinalBlock :=
  d.data.finalise BlockType.SpcForces subcase lineRange NasIndex.gp
    NasIndex.dof

/-- Line consumption for SPC forces (`SpcForcesDecoder::consume`). -/
def SpcForcesDecoder.consume (d : SpcForcesDecoder) (line : String) :
    SpcForcesDecoder × LineResponse :=
  if strHas line mystranDashes then (d, LineResponse.Done)
  else match extractReals SIXDOF line with
  | none => (d, LineResponse.Useless)
  | some dofs => match nthInteger line 0 with
    | some gid =>
      ({ d with data := d.data.insertRaw ⟨gid.toNat⟩ dofs },
       LineResponse.Data)
    | none => (d, LineResponse.Useless)

/-- This decodes an applied forces block (`AppliedForcesDecoder`). -/
structure AppliedForcesDecoder where
  flavour : Flavour
  data : RowBlock GridPointRef Dof

/-- Constructs an applied forces decoder (`AppliedForcesDecoder::new`). -/
def AppliedForcesDecoder.new (flavour : Flavour) : AppliedForcesDecoder :=
  { flavour := flavour, data := RowBlock.new dofCols }

/-- Finalisation of an applied forces decoder
(`AppliedForcesDecoder::unwrap`). -/
def AppliedForcesDecoder.unwrap (d : AppliedForcesDecoder) (subcase : Nat)
    (lineRange : Option (Nat × Nat)) : FinalBlock :=
  d.data.finalise BlockType.AppliedForces subcase lineRange NasIndex.gp
    NasIndex.dof

/-- Line consumption for applied forces (`AppliedForcesDecoder::consume`). -/
def AppliedForcesDecoder.consume (d : AppliedForcesDecoder) (line : String) :
    AppliedForcesDecoder × LineResponse :=
  if strHas line mystranDashes then (d, LineResponse.Done)
  else match extractReals SIXDOF line with
  | none => (d, LineResponse.Useless)
  | some dofs => match nthInteger line 0 with
    | some gid =>
      ({ d with data := d.data.insertRaw ⟨gid.toNat⟩ dofs },
       LineResponse.Data)
    | none => (d, LineResponse.Useless)

/-- The decoder for grid point force balance blocks
(`GridPointForceBalanceDecoder`). -/
structure GridPointForceBalanceDecoder where
  flavour : Flavour
  gpref : Option GridPointRef
  data : RowBlock GridPointForceOrigin Dof

/-- Constructs a grid point force balance decoder
(`GridPointForceBalanceDecoder::new`). -/
def GridPointForceBalanceDecoder.new (flavour : Flavour) :
    GridPointForceBalanceDecoder :=
  { flavour := flavour, gpref := none, data := RowBlock.new dofCols }

/-- Finalisation of a grid point force balance decoder
(`GridPointForceBalanceDecoder::unwrap`). -/
def GridPointForceBalanceDecoder.unwrap (d : GridPointForceBalanceDecoder)
    (subcase : Nat) (lineRange : Option (Nat × Nat)) : FinalBlock :=
  d.data.finalise BlockType.GridPointForceBalance subcase lineRange
    NasIndex.gpfo NasIndex.dof

/-- The force-origin resolution step of
`GridPointForceBalanceDecoder::consume` (the `let fo = match ...` part of the
source): returns the possibly updated current grid point together with either
the resolved force origin or the early-return response. -/
def GridPointForceBalanceDecoder.originOf (d : GridPointForceBalanceDecoder)
    (line : String) : Option GridPointRef × Except LineResponse ForceOrigin :=
  match d.flavour.solver with
  | some Solver.Mystran =>
    (d.gpref,
      if strHas line "APPLIED FORCE" then Except.ok ForceOrigin.Load
      else if strHas line "SPC FORCE" then
        Except.ok ForceOrigin.SinglePointConstraint
      else if strHas line "MPC FORCE" then
        Except.ok ForceOrigin.MultiPointConstraint
      else if strHas line "ELEM" then
        match nthInteger line 0 with
        | some eid =>
          Except.ok (ForceOrigin.Element
            ⟨eid.toNat, nthEtype line 0⟩)
        | none => Except.error LineResponse.Useless
      else Except.error LineResponse.Useless)
  | some Solver.Simcenter =>
    let g0 : Option GridPointRef := (nthInteger line 0).map (fun x => ⟨x.toNat⟩)
    if strHas line "*TOTALS*" then (g0, Except.error LineResponse.Useless)
    else if strHas line "APP-LOAD" then
      ((nthInteger line 1).map (fun x => ⟨x.toNat⟩), Except.ok ForceOrigin.Load)
    else if strHas line "F-OF-SPC" then
      (g0, Except.ok ForceOrigin.SinglePointConstraint)
    else if strHas line "F-OF-MPC" then
      (g0, Except.ok ForceOrigin.MultiPointConstraint)
    else
      let eid := (nthInteger line 1).map Int.toNat
      let etypeOpt := nthEtype line 0
      match g0, eid, etypeOpt with
      | some g, some eid, some etype =>
        (some g, Except.ok (ForceOrigin.Element ⟨eid, some etype⟩))
      | g, _, _ => (g, Except.error LineResponse.Useless)
  | none => (d.gpref, Except.error LineResponse.BadFlavour)

/-- Line consumption for grid point force balance
(`GridPointForceBalanceDecoder::consume`). -/
def GridPointForceBalanceDecoder.consume (d : GridPointForceBalanceDecoder)
    (line : String) : GridPointForceBalanceDecoder × LineResponse :=
  if strHas line mystranDashes then (d, LineResponse.Done)
  else if strHas line "FORCE BALANCE FOR GRID POINT" then
    ({ d with gpref := (nthInteger line 0).map (fun x => ⟨x.toNat⟩) },
     LineResponse.Metadata)
  else if strHas line "*TOTALS*" then (d, LineResponse.Useless)
  else
    match d.originOf line with
    | (g, Except.error r) => ({ d with gpref := g }, r)
    | (g, Except.ok fo) =>
      match g with
      | some gpref =>
        match extractReals SIXDOF line with
        | some arr =>
          ({ d with
              gpref := g,
              data := d.data.insertRaw ⟨gpref, fo⟩ arr }, LineResponse.Data)
        | none => ({ d with gpref := g }, LineResponse.BadFlavour)
      | none => ({ d with gpref := g }, LineResponse.Useless)

/-- A decoder for the "stresses in quad elements" table
(`QuadStressesDecoder`). -/
structure QuadStressesDecoder where
  flavour : Flavour
  data : RowBlock ElementSidedPoint QuadStressField
  cur_row : Option ElementSidedPoint
  etype : Option ElementType

/-- Constructs a quad stresses decoder (`QuadStressesDecoder::new`). -/
def QuadStressesDecoder.new (flavour : Flavour) : QuadStressesDecoder :=
  { flavour := flavour, data := RowBlock.new quadStressCols, cur_row := none,
    etype := none }

/-- Finalisation of a quad stresses decoder (`QuadStressesDecoder::unwrap`). -/
def QuadStressesDecoder.unwrap (d : QuadStressesDecoder) (subcase : Nat)
    (lineRange : Option (Nat × Nat)) : FinalBlock :=
  d.data.finalise BlockType.QuadStresses subcase lineRange NasIndex.esp
    NasIndex.qsf

/-- Header acceptance for quad stresses (`QuadStressesDecoder::good_header`):
records the element-type hint, then rejects thermal/elastic variants. -/
def QuadStressesDecoder.good_header (d : QuadStressesDecoder)
    (header : String) : QuadStressesDecoder × Bool :=
  ({ d with etype := nthEtype header 0 },
   !(strHas header "THERMAL" || strHas header "ELASTIC"))

/-- The row-identity resolution step of `QuadStressesDecoder::consume` (the
`match self.flavour.solver` part of the source): either the row index the
line resolves to (which the source then stores in `cur_row` and inserts at),
or the early-return response.  In the source every `Abort` return happens
before `cur_row` is mutated, so the state is unchanged on errors. -/
def QuadStressesDecoder.rowNext (d : QuadStressesDecoder) (line : String) :
    Except LineResponse ElementSidedPoint :=
  let fields := lineBreakdown line
  -- The source matches on the pair of the first two fields with the arms
  -- (Integer, NoIdea _), (NoIdea "GRD", Integer), (NoIdea "CENTER", _) and a
  -- catch-all, in that order; the word tests are written as conditionals
  -- here so that the patterns stay non-overlapping, preserving arm order.
  let mystranNew : Int → Except LineResponse ElementSidedPoint := fun eid =>
    if strHas line "CENTER" then
      Except.ok ⟨⟨eid.toNat, d.etype⟩, ElementPoint.Centroid,
        ElementSide.Bottom⟩
    else if strHas line "GRD" then
      match fields.get? 2 with
      | some (LineField.int gid) =>
        Except.ok ⟨⟨eid.toNat, d.etype⟩,
          ElementPoint.Corner ⟨gid.toNat⟩, ElementSide.Bottom⟩
      | _ => Except.error LineResponse.Abort
    else Except.error LineResponse.Abort
  let mystranGrd : Int → Except LineResponse ElementSidedPoint := fun gid =>
    match d.cur_row with
    | some ri => Except.ok { ri with point := ElementPoint.Corner ⟨gid.toNat⟩ }
    | none => Except.error LineResponse.Abort
  let mystranCen : Except LineResponse ElementSidedPoint :=
    match d.cur_row with
    | some ri => Except.ok { ri with point := ElementPoint.Centroid }
    | none => Except.error LineResponse.Abort
  let mystranFlip : Except LineResponse ElementSidedPoint :=
    match d.cur_row with
    | some ri => Except.ok ri.flipSide
    | none => Except.error LineResponse.Abort
  match d.flavour.solver with
  | some Solver.Mystran =>
    match fields.head?, fields.get? 1 with
    | some (LineField.int eid), some (LineField.noIdea _) => mystranNew eid
    | some (LineField.noIdea s), some (LineField.int gid) =>
      if s = "GRD" then mystranGrd gid
      else if s = "CENTER" then mystranCen
      else mystranFlip
    | some (LineField.noIdea s), _ =>
      if s = "CENTER" then mystranCen else mystranFlip
    | _, _ => mystranFlip
  | some Solver.Simcenter =>
    let ints : List Int := fields.filterMap (fun f =>
      match f with
      | LineField.int i => some i
      | _ => none)
    if ints.isEmpty then
      match d.cur_row with
      | some ri => Except.ok ri.flipSide
      | none => Except.error LineResponse.Abort
    else
      match
        (if strHas line "CEN/4" then some ElementPoint.Centroid
         else (ints.getLast?).map (fun gid => ElementPoint.Corner ⟨gid.toNat⟩))
      with
      | none => Except.error LineResponse.Abort
      | some point =>
        match ints.get? 1 with
        | some x =>
          Except.ok ⟨⟨x.toNat, d.etype⟩, point, ElementSide.Top⟩
        | none =>
          match d.cur_row with
          | some ri =>
            Except.ok ⟨⟨ri.element.eid, d.etype⟩, point, ElementSide.Top⟩
          | none => Except.error LineResponse.Abort
  | none => Except.error LineResponse.BadFlavour

/-- Line consumption for quad stresses (`QuadStressesDecoder::consume`): lines
without the fixed count of reals are useless; otherwise the row identity is
resolved per flavour, stored as the current row, and the values inserted. -/
def QuadStressesDecoder.consume (d : QuadStressesDecoder) (line : String) :
    QuadStressesDecoder × LineResponse :=
  match extractReals 8 line with
  | none => (d, LineResponse.Useless)
  | some cols =>
    match d.rowNext line with
    | Except.error r => (d, r)
    | Except.ok rid =>
      ({ d with
          cur_row := some rid,
          data := d.data.insertRaw rid cols }, LineResponse.Data)

/-- The column remapping the strains decoder applies on finalisation: stress
column tags become the corresponding strain tags.  (On a column index that is
not a stress tag the source panics; such an index never occurs in a block
produced by the stresses decoder, and the model leaves it unchanged.) -/
def qsfRemap (p : NasIndex × Nat) : NasIndex × Nat :=
  match p.1 with
  | NasIndex.qsf q => (NasIndex.qnf (QuadStrainField.ofStress q), p.2)
  | other => (other, p.2)

/-- A decoder for the "strains in quad elements" table: it just uses the
stresses decoder, transparently (`QuadStrainsDecoder`). -/
structure QuadStrainsDecoder where
  inner : QuadStressesDecoder

/-- Constructs a quad strains decoder (`QuadStrainsDecoder::new`). -/
def QuadStrainsDecoder.new (flavour : Flavour) : QuadStrainsDecoder :=
  ⟨QuadStressesDecoder.new flavour⟩

/-- Header acceptance for quad strains delegates to the stresses decoder
(`QuadStrainsDecoder::good_header`). -/
def QuadStrainsDecoder.good_header (d : QuadStrainsDecoder)
    (header : String) : QuadStrainsDecoder × Bool :=
  let p := d.inner.good_header header
  (⟨p.1⟩, p.2)

/-- Line consumption for quad strains delegates to the stresses decoder
(`QuadStrainsDecoder::consume`). -/
def QuadStrainsDecoder.consume (d : QuadStrainsDecoder) (line : String) :
    QuadStrainsDecoder × LineResponse :=
  let p := d.inner.consume line
  (⟨p.1⟩, p.2)

/-- Finalisation of a quad strains decoder (`QuadStrainsDecoder::unwrap`):
finalises the inner stresses decoder, remaps every stress column tag to the
corresponding strain tag, and rewrites the block type. -/
def QuadStrainsDecoder.unwrap (d : QuadStrainsDecoder) (subcase : Nat)
    (lineRange : Option (Nat × Nat)) : FinalBlock :=
  let fb := d.inner.unwrap subcase lineRange
  { fb with
      col_indexes := fb.col_indexes.map qsfRemap,
      block_type := BlockType.QuadStrains }

/-! ## The decoder registry

`BlockType::init_decoder` boxes one concrete decoder per block type behind
the `OpaqueDecoder` capability interface.  Fourteen of the twenty registered
decoders are not under `src/`; those are modelled from the spec as a generic
decoder whose finalisation tags the block with the decoder's own block type,
the given subcase and the line range (spec sections 4.2 and 4.3). -/

/-- Modelled from the spec: a decoder for a block type whose concrete
implementation is not under `src/` (the engineering-force, triangular, rod,
bar and ELAS1 decoders).  Only its construction and finalisation behaviour,
as fixed by the shared decoder contract, is modelled; line consumption is
left inert. -/
structure GenericDecoder where
  flavour : Flavour
  block_type : BlockType
  data : RowBlock NasIndex NasIndex

/-- Modelled from the spec: constructs a generic decoder for the given type. -/
def GenericDecoder.new (bt : BlockType) (flavour : Flavour) : GenericDecoder :=
  { flavour := flavour, block_type := bt, data := RowBlock.new [] }

/-- Modelled from the spec: finalisation yields a block tagged with the
decoder's block type, subcase and line range. -/
def GenericDecoder.unwrap (d : GenericDecoder) (subcase : Nat)
    (lineRange : Option (Nat × Nat)) : FinalBlock :=
  d.data.finalise d.block_type subcase lineRange id id

/-- The boxed decoder behind the `OpaqueDecoder` capability interface: one
variant per concrete decoder under `src/`, plus the spec-modelled generic
decoder for block types whose decoders are elsewhere. -/
inductive AnyDecoder
| disp (d : DisplacementsDecoder)
| gpfb (d : GridPointForceBalanceDecoder)
| spcf (d : SpcForcesDecoder)
| appf (d : AppliedForcesDecoder)
| quadStress (d : QuadStressesDecoder)
| quadStrain (d : QuadStrainsDecoder)
| generic (d : GenericDecoder)

/-- Dispatches line consumption through the capability interface. -/
def AnyDecoder.consume (a : AnyDecoder) (line : String) :
    AnyDecoder × LineResponse :=
  match a with
  | AnyDecoder.disp d =>
    let p := d.consume line
    (AnyDecoder.disp p.1, p.2)
  | AnyDecoder.gpfb d =>
    let p := d.consume line
    (AnyDecoder.gpfb p.1, p.2)
  | AnyDecoder.spcf d =>
    let p := d.consume line
    (AnyDecoder.spcf p.1, p.2)
  | AnyDecoder.appf d =>
    let p := d.consume line
    (AnyDecoder.appf p.1, p.2)
  | AnyDecoder.quadStress d =>
    let p := d.consume line
    (AnyDecoder.quadStress p.1, p.2)
  | AnyDecoder.quadStrain d =>
    let p := d.consume line
    (AnyDecoder.quadStrain p.1, p.2)
  | AnyDecoder.generic d => (AnyDecoder.generic d, LineResponse.Useless)

/-- Dispatches header acceptance through the capability interface; decoders
without a specific check accept every header (the trait default). -/
def AnyDecoder.good_header (a : AnyDecoder) (header : String) :
    AnyDecoder × Bool :=
  match a with
  | AnyDecoder.quadStress d =>
    let p := d.good_header header
    (AnyDecoder.quadStress p.1, p.2)
  | AnyDecoder.quadStrain d =>
    let p := d.good_header header
    (AnyDecoder.quadStrain p.1, p.2)
  | other => (other, true)

/-- Dispatches finalisation through the capability interface. -/
def AnyDecoder.unwrap (a : AnyDecoder) (subcase : Nat)
    (lineRange : Option (Nat × Nat)) : FinalBlock :=
  match a with
  | AnyDecoder.disp d => d.unwrap subcase lineRange
  | AnyDecoder.gpfb d => d.unwrap subcase lineRange
  | AnyDecoder.spcf d => d.unwrap subcase lineRange
  | AnyDecoder.appf d => d.unwrap subcase lineRange
  | AnyDecoder.quadStress d => d.unwrap subcase lineRange
  | AnyDecoder.quadStrain d => d.unwrap subcase lineRange
  | AnyDecoder.generic d => d.unwrap subcase lineRange

/-- Instantiates the decoder for a data block type
(`BlockType::init_decoder`). -/
def BlockType.init_decoder (t : BlockType) (flavour : Flavour) : AnyDecoder :=
  match t with
  | BlockType.Displacements => AnyDecoder.disp (DisplacementsDecoder.new flavour)
  | BlockType.GridPointForceBalance =>
    AnyDecoder.gpfb (GridPointForceBalanceDecoder.new flavour)
  | BlockType.SpcForces => AnyDecoder.spcf (SpcForcesDecoder.new flavour)
  | BlockType.AppliedForces => AnyDecoder.appf (AppliedForcesDecoder.new flavour)
  | BlockType.QuadStresses =>
    AnyDecoder.quadStress (QuadStressesDecoder.new flavour)
  | BlockType.QuadStrains =>
    AnyDecoder.quadStrain (QuadStrainsDecoder.new flavour)
  | other => AnyDecoder.generic (GenericDecoder.new other flavour)

/-! ## The one-pass parser

`OnePassParser` lives in the `parser` module, which is not under `src/`; the
driver below is modelled from spec section 4.4: scan lines in one forward
pass; with no active decoder, match the line against every registered block
type's header signatures and, on an accepted match, activate the type's
decoder and start tracking the line range; with an active decoder, feed it
the line — on `Done`, finalise under the current subcase; on `Abort` or
`BadFlavour`, log a fatal diagnostic and discard the partial block.  At end
of input a still-active decoder is discarded with a warning.  Subcase
tracking and potential-header recording are ambient state not exercised by
the claims; the subcase stays as initialised. -/

/-- The session state of the one-pass parser (modelled from the spec). -/
structure OnePassParser where
  flavour : Flavour
  subcase : Nat
  cur_line : Nat
  active : Option (AnyDecoder × Nat)
  blocks : List FinalBlock
  warnings : List (Nat × String)
  fatal_errors : List (Nat × String)

/-- Modelled from the spec: a fresh parser session. -/
def OnePassParser.new (flavour : Flavour) (subcase : Nat) : OnePassParser :=
  { flavour := flavour, subcase := subcase, cur_line := 1, active := none,
    blocks := [], warnings := [], fatal_errors := [] }

/-- Modelled from the spec: the first registered block type one of whose
header signatures occurs in the line. -/
def matchHeader (line : String) : Option BlockType :=
  BlockType.all.find? (fun t => t.headers.any (fun h => strHas line h))

/-- Modelled from the spec: processes one line of input. -/
def OnePassParser.step (p : OnePassParser) (line : String) : OnePassParser :=
  let next : OnePassParser :=
    match p.active with
    | some (dec, start) =>
      let c := dec.consume line
      match c.2 with
      | LineResponse.Done =>
        { p with
            active := none,
            blocks :=
              p.blocks ++ [c.1.unwrap p.subcase (some (start, p.cur_line))] }
      | LineResponse.Abort =>
        { p with
            active := none,
            fatal_errors := p.fatal_errors ++ [(p.cur_line, "abort")] }
      | LineResponse.BadFlavour =>
        { p with
            active := none,
            fatal_errors := p.fatal_errors ++ [(p.cur_line, "bad flavour")] }
      | _ => { p with active := some (c.1, start) }
    | none =>
      match matchHeader line with
      | some t =>
        let g := (t.init_decoder p.flavour).good_header line
        if g.2 then { p with active := some (g.1, p.cur_line) } else p
      | none => p
  { next with cur_line := p.cur_line + 1 }

/-- Modelled from the spec: runs the parser over a whole list of lines and
closes the session, discarding a still-active decoder with a warning. -/
def OnePassParser.run (flavour : Flavour) (subcase : Nat)
    (lines : List String) : OnePassParser :=
  let fin := lines.foldl OnePassParser.step (OnePassParser.new flavour subcase)
  match fin.active with
  | some _ =>
    { fin with
        active := none,
        warnings := fin.warnings ++ [(fin.cur_line, "unterminated block")] }
  | none => fin

/-! ## The merger

`F06File::merge_blocks` is not under `src/` (only its caller in
`f06info/src/main.rs` is); it is modelled from spec section 4.5: group
finalized blocks by (block type, subcase); merge each group with more than
one member into a single block whose line range is the union of the members'
ranges and whose rows are merged under RowBlock's overwrite policy; return
the number of merges performed. -/

/-- The grouping key of a finalized block: its type and subcase. -/
def FinalBlock.key (b : FinalBlock) : BlockType × Nat :=
  (b.block_type, b.subcase)

/-- Union of two optional line ranges (modelled from the spec: merging
"unions their line ranges"). -/
def rangeUnion : Option (Nat × Nat) → Option (Nat × Nat) → Option (Nat × Nat)
| none, r => r
| some r, none => some r
| some (a, b), some (c, d) => some (min a c, max b d)

/-- Modelled from the spec: merges a later block `b` into an earlier block
`a` of the same (type, subcase): ranges are unioned and `b`'s rows are
inserted into `a`'s under the overwrite policy. -/
def FinalBlock.absorb (a b : FinalBlock) : FinalBlock :=
  { a with
      line_range := rangeUnion a.line_range b.line_range,
      rows := b.rows.foldl (fun acc r => assocInsert acc r.1 r.2) a.rows }

/-- Merges one block into an accumulated list: if a block with the same
(type, subcase) is present, the new block is absorbed into it (one merge);
otherwise it is appended. -/
def mergeStep (acc : List FinalBlock × Nat) (b : FinalBlock) :
    List FinalBlock × Nat :=
  if b.key ∈ acc.1.map FinalBlock.key then
    (acc.1.map (fun a => if a.key = b.key then a.absorb b else a),
     acc.2 + 1)
  else
    (acc.1 ++ [b], acc.2)

/-- Modelled from the spec: `merge_blocks` — consolidates blocks of identical
(type, subcase), returning the new block list and the number of merges
performed. -/
def mergeBlocks (blocks : List FinalBlock) : List FinalBlock × Nat :=
  blocks.foldl mergeStep ([], 0)

/-! ## Derived definitions used by the claim statements -/

/-- Consumes a whole sequence of lines through a quad stresses decoder,
collecting the responses. -/
def QuadStressesDecoder.consumeMany (d : QuadStressesDecoder)
    (lines : List String) : QuadStressesDecoder × List LineResponse :=
  match lines with
  | [] => (d, [])
  | l :: rest =>
    let p := d.consume l
    let q := p.1.consumeMany rest
    (q.1, p.2 :: q.2)

/-- Consumes a whole sequence of lines through a quad strains decoder,
collecting the responses. -/
def QuadStrainsDecoder.consumeMany (d : QuadStrainsDecoder)
    (lines : List String) : QuadStrainsDecoder × List LineResponse :=
  match lines with
  | [] => (d, [])
  | l :: rest =>
    let p := d.consume l
    let q := p.1.consumeMany rest
    (q.1, p.2 :: q.2)

/-- The row keys of a finalized block. -/
def FinalBlock.rowKeys (b : FinalBlock) : List NasIndex :=
  b.rows.map Prod.fst

/-- The input of the displacements round-trip scenario: the plain header, one
data line for grid point 7, and the dashed terminator. -/
def c1Lines : List String :=
  ["DISPLACEMENTS",
   "      7      G      0.1  0.2  0.3  0.0  0.0  0.0",
   " ------------- "]

/-- The decimal literals stored by the displacements scenario. -/
def c1Vals : List DecLit :=
  [⟨1, -1⟩, ⟨2, -1⟩, ⟨3, -1⟩, ⟨0, -1⟩, ⟨0, -1⟩, ⟨0, -1⟩]

/-! ## Claim theorems -/

/-- C1: feeding the parser the header line `DISPLACEMENTS`, the single data
line for grid point 7, and a dashed terminator yields exactly one finalized
block of type Displacements under the currently tracked subcase, with exactly
one row keyed by grid-point reference 7 and six columns — the six degrees of
freedom in construction order — whose stored values are
[0.1, 0.2, 0.3, 0.0, 0.0, 0.0]. -/
theorem c1_displacements_round_trip (f : Flavour) (s : Nat) :
    (OnePassParser.run f s c1Lines).blocks =
      [{ block_type := BlockType.Displacements, subcase := s,
         line_range := some (1, 3),
         col_indexes :=
           [(NasIndex.dof Dof.T1, 0), (NasIndex.dof Dof.T2, 1),
            (NasIndex.dof Dof.T3, 2), (NasIndex.dof Dof.R1, 3),
            (NasIndex.dof Dof.R2, 4), (NasIndex.dof Dof.R3, 5)],
         rows := [(NasIndex.gp ⟨7⟩, c1Vals)] }] ∧
    c1Vals.map DecLit.toRat = [1/10, 2/10, 3/10, 0, 0, 0] :=
  ⟨rfl, by norm_num [c1Vals, DecLit.toRat]⟩

/-- C8: the header-acceptance check of the quad stresses decoder rejects a
header exactly when it contains THERMAL or ELASTIC, accepts every other
header, and records the element-type hint embedded in the header; the quad
strains decoder delegates to it. -/
theorem c8_quad_header_acceptance (d : QuadStressesDecoder)
    (dn : QuadStrainsDecoder) (header : String) :
    ((d.good_header header).2 = false ↔
      (strHas header "THERMAL" = true ∨ strHas header "ELASTIC" = true)) ∧
    (d.good_header header).1.etype = nthEtype header 0 ∧
    (dn.good_header header).2 = (dn.inner.good_header header).2 ∧
    (dn.good_header header).1.inner.etype = nthEtype header 0 := by
  refine ⟨?_, rfl, rfl, rfl⟩
  simp only [QuadStressesDecoder.good_header, Bool.not_eq_false',
    Bool.or_eq_true]

/-- C9: for every block type and flavour, the decoder instantiated by the
registry finalises into a block whose type field equals that block type — in
particular the strains decoder rewrites the inner stresses decoder's tag. -/
theorem c9_init_decoder_block_type (t : BlockType) (f : Flavour) (s : Nat)
    (lr : Option (Nat × Nat)) :
    ((t.init_decoder f).unwrap s lr).block_type = t := by
  cases t <;> rfl

/-! ## Helper lemmas shared by the remaining claim theorems -/

/-- The row-identity step of the quad stresses decoder never produces the
`Done` early return: its error values are only `Abort` and `BadFlavour`. -/
theorem rowNextNotDone (d : QuadStressesDecoder) (line : String) :
    d.rowNext line ≠ Except.error LineResponse.Done := by
  intro hc
  unfold QuadStressesDecoder.rowNext at hc
  simp only at hc
  repeat' split at hc
  all_goals simp_all

/-- The quad stresses decoder never responds `Done` to any line: it has no
dashed-marker check, so its blocks end only at the next recognized header. -/
theorem quadNeverDone (d : QuadStressesDecoder) (line : String) :
    (d.consume line).2 ≠ LineResponse.Done := by
  intro hc
  unfold QuadStressesDecoder.consume at hc
  split at hc
  · simp_all
  · split at hc
    · next r heq =>
      simp only at hc
      subst hc
      exact rowNextNotDone d line heq
    · simp_all

/-- Under the Mystran flavour the origin-resolution step never moves the
current grid point. -/
theorem gpfbMystranOriginFst (d : GridPointForceBalanceDecoder) (line : String)
    (hf : d.flavour.solver = some Solver.Mystran) :
    (d.originOf line).1 = d.gpref := by
  unfold GridPointForceBalanceDecoder.originOf
  rw [hf]

/-- Under a known solver flavour, a failure to resolve a force origin is
always the `Useless` early return, never `Abort` or `BadFlavour`. -/
theorem gpfbKnownOriginErrUseless (d : GridPointForceBalanceDecoder)
    (line : String) (slv : Solver) (hs : d.flavour.solver = some slv) :
    ∀ g e, d.originOf line = (g, Except.error e) →
      e = LineResponse.Useless := by
  intro g e hq
  unfold GridPointForceBalanceDecoder.originOf at hq
  rw [hs] at hq
  cases slv
  all_goals simp only at hq
  all_goals repeat' split at hq
  all_goals simp_all

/-- Key membership after an overwriting insertion into an association list. -/
theorem assocInsert_keys_mem {K V : Type} [DecidableEq K]
    (l : List (K × V)) (k : K) (v : V) (k0 : K) :
    k0 ∈ (assocInsert l k v).map Prod.fst ↔
      k0 = k ∨ k0 ∈ l.map Prod.fst := by
  induction l with
  | nil => simp [assocInsert]
  | cons p rest ih =>
    by_cases h : p.1 = k
    · simp [assocInsert, h]
      try tauto
    · simp [assocInsert, h, ih]
      tauto

/-- Looking up the key just inserted yields the new value. -/
theorem assocGet_insert_self {K V : Type} [DecidableEq K]
    (l : List (K × V)) (k : K) (v : V) :
    assocGet (assocInsert l k v) k = some v := by
  induction l with
  | nil => simp [assocInsert, assocGet]
  | cons p rest ih =>
    by_cases h : p.1 = k
    · simp [assocInsert, h, assocGet]
    · simp [assocInsert, h, assocGet, ih]

/-- Inserting at a key already present leaves the key list unchanged. -/
theorem assocInsert_keys_of_mem {K V : Type} [DecidableEq K]
    (l : List (K × V)) (k : K) (v : V) (h : k ∈ l.map Prod.fst) :
    (assocInsert l k v).map Prod.fst = l.map Prod.fst := by
  induction l with
  | nil => simp at h
  | cons p rest ih =>
    by_cases hp : p.1 = k
    · simp [assocInsert, hp]
    · have hmem : k ∈ rest.map Prod.fst := by
        simp only [List.map_cons, List.mem_cons] at h
        rcases h with h | h
        · exact absurd h.symm hp
        · exact h
      simp [assocInsert, hp, ih hmem]

/-- A successful lookup witnesses key membership. -/
theorem assocGet_mem {K V : Type} [DecidableEq K]
    (l : List (K × V)) (k : K) (v : V) (h : assocGet l k = some v) :
    k ∈ l.map Prod.fst := by
  induction l with
  | nil => simp [assocGet] at h
  | cons p rest ih =>
    by_cases hp : p.1 = k
    · simp [hp]
    · simp [assocGet, hp] at h
      simp [ih h]

/-- Absorbing a block leaves the grouping key unchanged. -/
theorem absorb_key (a b : FinalBlock) : (a.absorb b).key = a.key := rfl

/-- Key membership after folding overwriting insertions of a whole row list. -/
theorem foldl_assocInsert_keys_mem {K V : Type} [DecidableEq K]
    (rs : List (K × V)) :
    ∀ (acc : List (K × V)) (k : K),
      k ∈ ((rs.foldl (fun ac r => assocInsert ac r.1 r.2) acc).map
        Prod.fst) ↔ k ∈ acc.map Prod.fst ∨ k ∈ rs.map Prod.fst := by
  induction rs with
  | nil => intro acc k; simp
  | cons r rest ih =>
    intro acc k
    rw [List.foldl_cons, ih, assocInsert_keys_mem]
    simp
    tauto

/-- The grouping keys after one merge step: unchanged when the new block's
key was already present, extended by it otherwise. -/
theorem mergeStep_keys (l : List FinalBlock) (n : Nat) (b : FinalBlock) :
    ((mergeStep (l, n) b).1).map FinalBlock.key =
      if b.key ∈ l.map FinalBlock.key then l.map FinalBlock.key
      else l.map FinalBlock.key ++ [b.key] := by
  unfold mergeStep
  by_cases h : b.key ∈ l.map FinalBlock.key
  · simp only [h, if_true]
    rw [List.map_map]
    apply List.map_congr_left
    intro a _
    by_cases ha : a.key = b.key <;> simp [ha, absorb_key]
  · simp [h]

/-- Folding the merge step over blocks with pairwise distinct grouping keys
appends them unchanged and performs no merges. -/
theorem foldl_mergeStep_nodup_id (bs : List FinalBlock) :
    ∀ (l : List FinalBlock) (n : Nat),
      ((l ++ bs).map FinalBlock.key).Nodup →
      bs.foldl mergeStep (l, n) = (l ++ bs, n) := by
  induction bs with
  | nil => intro l n h; simp
  | cons b rest ih =>
    intro l n h
    have h' := h
    rw [List.map_append, List.nodup_append] at h'
    have hnm : b.key ∉ l.map FinalBlock.key := by
      intro hmem
      exact (h'.2.2 hmem) (by simp)
    have hstep : mergeStep (l, n) b = (l ++ [b], n) := by
      unfold mergeStep
      simp [hnm]
    rw [List.foldl_cons, hstep, ih (l ++ [b]) n (by simpa using h)]
    simp

/-- The merger always produces a list of blocks with pairwise distinct
grouping keys. -/
theorem foldl_mergeStep_keys_nodup (bs : List FinalBlock) :
    ∀ (l : List FinalBlock) (n : Nat), (l.map FinalBlock.key).Nodup →
      (((bs.foldl mergeStep (l, n)).1).map FinalBlock.key).Nodup := by
  induction bs with
  | nil => intro l n h; simpa using h
  | cons b rest ih =>
    intro l n h
    rw [List.foldl_cons]
    rcases hms : mergeStep (l, n) b with ⟨l2, n2⟩
    have hk := mergeStep_keys l n b
    rw [hms] at hk
    by_cases hmem : b.key ∈ l.map FinalBlock.key
    · exact ih l2 n2 (by rw [show l2.map FinalBlock.key = l.map FinalBlock.key
        from by simpa [hmem] using hk]; exact h)
    · refine ih l2 n2 ?_
      rw [show l2.map FinalBlock.key = l.map FinalBlock.key ++ [b.key]
        from by simpa [hmem] using hk]
      rw [List.nodup_append]
      refine ⟨h, List.nodup_singleton _, ?_⟩
      intro x hx hxb
      simp at hxb
      exact hmem (hxb ▸ hx)

/-- Merging an already-merged block list is a no-op with zero merges. -/
theorem mergeBlocks_idem (blocks : List FinalBlock) :
    mergeBlocks (mergeBlocks blocks).1 = ((mergeBlocks blocks).1, 0) := by
  have hnd := foldl_mergeStep_keys_nodup blocks [] 0 (by simp)
  exact foldl_mergeStep_nodup_id _ [] 0 (by simpa using hnd)

/-- Merging exactly two blocks of the same (type, subcase) produces the
single absorbed block and counts one merge. -/
theorem mergeTwoSame (a b : FinalBlock) (h : a.key = b.key) :
    mergeBlocks [a, b] = ([a.absorb b], 1) := by
  unfold mergeBlocks
  simp [mergeStep, h]

/-- The row-key set of an absorbed block is the union of the inputs' key
sets. -/
theorem absorb_rowKeys (a b : FinalBlock) (k : NasIndex) :
    k ∈ (a.absorb b).rowKeys ↔ k ∈ a.rowKeys ∨ k ∈ b.rowKeys := by
  unfold FinalBlock.absorb FinalBlock.rowKeys
  simp only
  rw [foldl_assocInsert_keys_mem]

/-- C2 counterexample: after the metadata line establishes grid point 7, a
line with a resolvable force origin (APPLIED FORCE) whose values do not parse
as six reals returns `BadFlavour`, not `Abort` as the claim states. -/
theorem c2_counterexample :
    (((GridPointForceBalanceDecoder.new
        ⟨some Solver.Mystran, none⟩).consume
        "                        FORCE BALANCE FOR GRID POINT      7").1.consume
      "   APPLIED FORCE   junk   1.0  2.0").2 = LineResponse.BadFlavour ∧
    LineResponse.BadFlavour ≠ LineResponse.Abort :=
  ⟨rfl, by decide⟩

/-- C2 (amended): for every line consumed by an active grid point force
balance decoder with a known solver flavour (the line being neither the
dashed terminator, the grid-point metadata line, nor a totals line): a line
lacking a resolvable force origin returns `Useless` and never `Abort`; a line
with a resolvable force origin and a current grid point whose values do not
parse as six reals returns `BadFlavour` (not `Abort`), which is fatal to that
block instance only — the driver discards the partial block and the parse
continues. -/
theorem c2_gpfb_error_responses (d : GridPointForceBalanceDecoder)
    (line : String) (slv : Solver)
    (hs : d.flavour.solver = some slv)
    (h1 : strHas line mystranDashes = false)
    (h2 : strHas line "FORCE BALANCE FOR GRID POINT" = false)
    (h3 : strHas line "*TOTALS*" = false) :
    (∀ g e, d.originOf line = (g, Except.error e) →
      e = LineResponse.Useless ∧ (d.consume line).2 = LineResponse.Useless) ∧
    (∀ g fo, d.originOf line = (some g, Except.ok fo) →
      extractReals SIXDOF line = none →
      (d.consume line).2 = LineResponse.BadFlavour) ∧
    (∀ (p : OnePassParser) (start : Nat),
      p.active = some (AnyDecoder.gpfb d, start) →
      (d.consume line).2 = LineResponse.BadFlavour →
      (p.step line).active = none ∧ (p.step line).blocks = p.blocks) := by
  refine ⟨?_, ?_, ?_⟩
  · intro g e hq
    have he : e = LineResponse.Useless :=
      gpfbKnownOriginErrUseless d line slv hs g e hq
    subst he
    refine ⟨rfl, ?_⟩
    unfold GridPointForceBalanceDecoder.consume
    simp [h1, h2, h3, hq]
  · intro g fo hq hex
    unfold GridPointForceBalanceDecoder.consume
    simp [h1, h2, h3, hq, hex]
  · intro p start hact hbad
    unfold OnePassParser.step
    simp [hact, AnyDecoder.consume, hbad]

/-- C2 witness: a junk line inside a Mystran force balance block is useless;
a resolved-origin line with unparseable values aborts the block as
flavour-attributable. -/
theorem c2_gpfb_error_responses_witness :
    ((GridPointForceBalanceDecoder.new
        ⟨some Solver.Mystran, none⟩).consume "   JUNK   ").2 =
      LineResponse.Useless ∧
    ((((GridPointForceBalanceDecoder.new
        ⟨some Solver.Mystran, none⟩).consume
        "                        FORCE BALANCE FOR GRID POINT      7").1).consume
      "   APPLIED FORCE   junk   1.0  2.0").2 = LineResponse.BadFlavour :=
  ⟨((c2_gpfb_error_responses (GridPointForceBalanceDecoder.new
        ⟨some Solver.Mystran, none⟩) "   JUNK   " Solver.Mystran rfl
        (by decide) (by decide) (by decide)).1 none LineResponse.Useless
      rfl).2,
   (c2_gpfb_error_responses (((GridPointForceBalanceDecoder.new
        ⟨some Solver.Mystran, none⟩).consume
        "                        FORCE BALANCE FOR GRID POINT      7").1)
      "   APPLIED FORCE   junk   1.0  2.0" Solver.Mystran rfl
      (by decide) (by decide) (by decide)).2.1 ⟨7⟩ ForceOrigin.Load rfl rfl⟩

/-- C3 counterexample: the quad stresses decoder responds `Useless`, not
`Done`, to a line containing the fixed dashed marker — so not every block
decoder terminates at the dashed marker. -/
theorem c3_counterexample :
    ((QuadStressesDecoder.new ⟨some Solver.Mystran, none⟩).consume
      " ------------- ").2 = LineResponse.Useless ∧
    LineResponse.Useless ≠ LineResponse.Done :=
  ⟨rfl, by decide⟩

/-- C3 (amended): the Displacements, SpcForces, AppliedForces and
GridPointForceBalance decoders return `Done` on every line containing the
fixed dashed marker; the QuadStresses and QuadStrains decoders never return
`Done` on any line — their blocks end only at the next recognized header. -/
theorem c3_dashed_marker_termination :
    (∀ (d : DisplacementsDecoder) (line : String),
        strHas line mystranDashes = true →
        (d.consume line).2 = LineResponse.Done) ∧
    (∀ (d : SpcForcesDecoder) (line : String),
        strHas line mystranDashes = true →
        (d.consume line).2 = LineResponse.Done) ∧
    (∀ (d : AppliedForcesDecoder) (line : String),
        strHas line mystranDashes = true →
        (d.consume line).2 = LineResponse.Done) ∧
    (∀ (d : GridPointForceBalanceDecoder) (line : String),
        strHas line mystranDashes = true →
        (d.consume line).2 = LineResponse.Done) ∧
    (∀ (d : QuadStressesDecoder) (line : String),
        (d.consume line).2 ≠ LineResponse.Done) ∧
    (∀ (d : QuadStrainsDecoder) (line : String),
        (d.consume line).2 ≠ LineResponse.Done) := by
  refine ⟨?_, ?_, ?_, ?_, ?_, ?_⟩
  · intro d line h
    unfold DisplacementsDecoder.consume
    simp [h]
  · intro d line h
    unfold SpcForcesDecoder.consume
    simp [h]
  · intro d line h
    unfold AppliedForcesDecoder.consume
    simp [h]
  · intro d line h
    unfold GridPointForceBalanceDecoder.consume
    simp [h]
  · intro d line
    exact quadNeverDone d line
  · intro d line
    exact quadNeverDone d.inner line

/-- C3 witness: all four dashed-terminated decoders respond `Done` to the
dashed marker line. -/
theorem c3_dashed_marker_termination_witness :
    ((DisplacementsDecoder.new ⟨none, none⟩).consume " ------------- ").2 =
      LineResponse.Done ∧
    ((SpcForcesDecoder.new ⟨none, none⟩).consume " ------------- ").2 =
      LineResponse.Done ∧
    ((AppliedForcesDecoder.new ⟨none, none⟩).consume " ------------- ").2 =
      LineResponse.Done ∧
    ((GridPointForceBalanceDecoder.new ⟨none, none⟩).consume
      " ------------- ").2 = LineResponse.Done :=
  ⟨c3_dashed_marker_termination.1 (DisplacementsDecoder.new ⟨none, none⟩)
      " ------------- " (by decide),
   c3_dashed_marker_termination.2.1 (SpcForcesDecoder.new ⟨none, none⟩)
      " ------------- " (by decide),
   c3_dashed_marker_termination.2.2.1 (AppliedForcesDecoder.new ⟨none, none⟩)
      " ------------- " (by decide),
   c3_dashed_marker_termination.2.2.2.1
      (GridPointForceBalanceDecoder.new ⟨none, none⟩) " ------------- "
      (by decide)⟩

/-- C4 counterexample: a displacements decoder constructed with an
undetermined (None) solver flavour consuming a data-shaped line inserts the
row and returns `Data`, not `BadFlavour` as the claim states. -/
theorem c4_counterexample :
    ((DisplacementsDecoder.new ⟨none, none⟩).consume
      "      7      G      0.1  0.2  0.3  0.0  0.0  0.0").2 =
      LineResponse.Data ∧
    LineResponse.Data ≠ LineResponse.BadFlavour :=
  ⟨rfl, by decide⟩

/-- C4 (amended): with an undetermined (None) solver flavour, the
GridPointForceBalance decoder and the QuadStresses/QuadStrains decoders
refuse to proceed on data-shaped lines with `BadFlavour`; the Displacements,
SpcForces and AppliedForces decoders never consult the flavour — they insert
the row and return `Data` on every data-shaped line. -/
theorem c4_undetermined_flavour :
    (∀ (d : GridPointForceBalanceDecoder) (line : String),
        d.flavour.solver = none →
        strHas line mystranDashes = false →
        strHas line "FORCE BALANCE FOR GRID POINT" = false →
        strHas line "*TOTALS*" = false →
        (d.consume line).2 = LineResponse.BadFlavour) ∧
    (∀ (d : QuadStressesDecoder) (line : String) (cols : List DecLit),
        d.flavour.solver = none → extractReals 8 line = some cols →
        (d.consume line).2 = LineResponse.BadFlavour) ∧
    (∀ (d : QuadStrainsDecoder) (line : String) (cols : List DecLit),
        d.inner.flavour.solver = none → extractReals 8 line = some cols →
        (d.consume line).2 = LineResponse.BadFlavour) ∧
    (∀ (d : DisplacementsDecoder) (line : String) (vals : List DecLit)
        (gid : Int),
        strHas line mystranDashes = false →
        extractReals SIXDOF line = some vals →
        nthInteger line 0 = some gid →
        (d.consume line).2 = LineResponse.Data) ∧
    (∀ (d : SpcForcesDecoder) (line : String) (vals : List DecLit)
        (gid : Int),
        strHas line mystranDashes = false →
        extractReals SIXDOF line = some vals →
        nthInteger line 0 = some gid →
        (d.consume line).2 = LineResponse.Data) ∧
    (∀ (d : AppliedForcesDecoder) (line : String) (vals : List DecLit)
        (gid : Int),
        strHas line mystranDashes = false →
        extractReals SIXDOF line = some vals →
        nthInteger line 0 = some gid →
        (d.consume line).2 = LineResponse.Data) := by
  refine ⟨?_, ?_, ?_, ?_, ?_, ?_⟩
  · intro d line hn h1 h2 h3
    unfold GridPointForceBalanceDecoder.consume
      GridPointForceBalanceDecoder.originOf
    simp [h1, h2, h3, hn]
  · intro d line cols hn hex
    unfold QuadStressesDecoder.consume QuadStressesDecoder.rowNext
    simp [hex, hn]
  · intro d line cols hn hex
    show ((d.inner.consume line).2 = _)
    unfold QuadStressesDecoder.consume QuadStressesDecoder.rowNext
    simp [hex, hn]
  · intro d line vals gid h1 hex hgid
    unfold DisplacementsDecoder.consume
    simp [h1, hex, hgid]
  · intro d line vals gid h1 hex hgid
    unfold SpcForcesDecoder.consume
    simp [h1, hex, hgid]
  · intro d line vals gid h1 hex hgid
    unfold AppliedForcesDecoder.consume
    simp [h1, hex, hgid]

/-- C4 witness: a grid point force balance decoder with undetermined flavour
refuses an ordinary line, while a displacements decoder with undetermined
flavour accepts a data line. -/
theorem c4_undetermined_flavour_witness :
    ((GridPointForceBalanceDecoder.new ⟨none, none⟩).consume
      "   whatever   ").2 = LineResponse.BadFlavour ∧
    ((DisplacementsDecoder.new ⟨none, none⟩).consume
      "      7      G      0.1  0.2  0.3  0.0  0.0  0.0").2 =
      LineResponse.Data :=
  ⟨c4_undetermined_flavour.1 (GridPointForceBalanceDecoder.new ⟨none, none⟩)
      "   whatever   " rfl (by decide) (by decide) (by decide),
   c4_undetermined_flavour.2.2.2.1 (DisplacementsDecoder.new ⟨none, none⟩)
      "      7      G      0.1  0.2  0.3  0.0  0.0  0.0"
      [⟨1, -1⟩, ⟨2, -1⟩, ⟨3, -1⟩, ⟨0, -1⟩, ⟨0, -1⟩, ⟨0, -1⟩] 7
      (by decide) rfl rfl⟩

/-- The strains decoder's state after any line sequence is exactly the inner
stresses decoder's state, with identical responses. -/
theorem strainsManyRel (lines : List String) :
    ∀ (d : QuadStrainsDecoder),
      (d.consumeMany lines).1.inner = (d.inner.consumeMany lines).1 ∧
      (d.consumeMany lines).2 = (d.inner.consumeMany lines).2 := by
  induction lines with
  | nil => intro d; exact ⟨rfl, rfl⟩
  | cons l rest ih =>
    intro d
    have h := ih ⟨(d.inner.consume l).1⟩
    simp only [QuadStrainsDecoder.consumeMany, QuadStressesDecoder.consumeMany,
      QuadStrainsDecoder.consume]
    exact ⟨h.1, by rw [h.2]⟩

/-- C5: for every flavour and every sequence of consumed lines, the quad
strains decoder behaves identically to the quad stresses decoder — its state
is the stresses decoder's state and the responses coincide, header acceptance
included — and its finalisation yields the stresses decoder's block with
every stress column tag remapped to the corresponding strain tag and the
block type rewritten to QuadStrains. -/
theorem c5_strains_reuse_stresses (f : Flavour) (lines : List String)
    (s : Nat) (lr : Option (Nat × Nat)) (header : String) :
    ((QuadStrainsDecoder.new f).consumeMany lines).1.inner =
      ((QuadStressesDecoder.new f).consumeMany lines).1 ∧
    ((QuadStrainsDecoder.new f).consumeMany lines).2 =
      ((QuadStressesDecoder.new f).consumeMany lines).2 ∧
    (((QuadStrainsDecoder.new f).consumeMany lines).1.good_header header).2 =
      ((((QuadStressesDecoder.new f).consumeMany lines).1).good_header
        header).2 ∧
    ((QuadStrainsDecoder.new f).consumeMany lines).1.unwrap s lr =
      { (((QuadStressesDecoder.new f).consumeMany lines).1).unwrap s lr with
          col_indexes :=
            ((((QuadStressesDecoder.new f).consumeMany lines).1).unwrap
              s lr).col_indexes.map qsfRemap,
          block_type := BlockType.QuadStrains } := by
  have h := strainsManyRel lines (QuadStrainsDecoder.new f)
  have hinner : (QuadStrainsDecoder.new f).inner = QuadStressesDecoder.new f :=
    rfl
  rw [hinner] at h
  refine ⟨h.1, h.2, ?_, ?_⟩
  · show ((((QuadStrainsDecoder.new f).consumeMany
      lines).1.inner).good_header header).2 = _
    rw [h.1]
  · show QuadStrainsDecoder.unwrap _ _ _ = _
    unfold QuadStrainsDecoder.unwrap
    rw [h.1]

/-- C6: merging finalized blocks groups them by (block type, subcase): two
blocks with the same key merge into a single block whose row-key set is the
union of the inputs' row-key sets and whose line range is the union of their
ranges, counting one merge; and the merger is idempotent — re-merging an
already-merged list performs zero merges and leaves it unchanged. -/
theorem c6_merge_union_and_idempotence (blocks : List FinalBlock)
    (a b : FinalBlock) (h : a.key = b.key) :
    mergeBlocks [a, b] = ([a.absorb b], 1) ∧
    (∀ k, k ∈ (a.absorb b).rowKeys ↔ k ∈ a.rowKeys ∨ k ∈ b.rowKeys) ∧
    (a.absorb b).line_range = rangeUnion a.line_range b.line_range ∧
    mergeBlocks (mergeBlocks blocks).1 = ((mergeBlocks blocks).1, 0) :=
  ⟨mergeTwoSame a b h, fun k => absorb_rowKeys a b k, rfl,
   mergeBlocks_idem blocks⟩

/-- C6 witness: two displacement blocks of subcase 1 merge into one block,
and re-merging a merged list is a no-op. -/
theorem c6_merge_union_and_idempotence_witness :
    mergeBlocks
      [⟨BlockType.Displacements, 1, some (1, 3), [],
        [(NasIndex.gp ⟨1⟩, [])]⟩,
       ⟨BlockType.Displacements, 1, some (10, 12), [],
        [(NasIndex.gp ⟨2⟩, [])]⟩] =
      ([FinalBlock.absorb
          ⟨BlockType.Displacements, 1, some (1, 3), [],
            [(NasIndex.gp ⟨1⟩, [])]⟩
          ⟨BlockType.Displacements, 1, some (10, 12), [],
            [(NasIndex.gp ⟨2⟩, [])]⟩], 1) ∧
    mergeBlocks
      (mergeBlocks
        [⟨BlockType.Displacements, 1, some (1, 3), [],
          [(NasIndex.gp ⟨1⟩, [])]⟩,
         ⟨BlockType.Displacements, 1, some (10, 12), [],
          [(NasIndex.gp ⟨2⟩, [])]⟩]).1 =
      ((mergeBlocks
        [⟨BlockType.Displacements, 1, some (1, 3), [],
          [(NasIndex.gp ⟨1⟩, [])]⟩,
         ⟨BlockType.Displacements, 1, some (10, 12), [],
          [(NasIndex.gp ⟨2⟩, [])]⟩]).1, 0) :=
  ⟨(c6_merge_union_and_idempotence []
      ⟨BlockType.Displacements, 1, some (1, 3), [], [(NasIndex.gp ⟨1⟩, [])]⟩
      ⟨BlockType.Displacements, 1, some (10, 12), [], [(NasIndex.gp ⟨2⟩, [])]⟩
      rfl).1,
   (c6_merge_union_and_idempotence
      [⟨BlockType.Displacements, 1, some (1, 3), [],
        [(NasIndex.gp ⟨1⟩, [])]⟩,
       ⟨BlockType.Displacements, 1, some (10, 12), [],
        [(NasIndex.gp ⟨2⟩, [])]⟩]
      ⟨BlockType.Displacements, 1, some (1, 3), [], [(NasIndex.gp ⟨1⟩, [])]⟩
      ⟨BlockType.Displacements, 1, some (10, 12), [], [(NasIndex.gp ⟨2⟩, [])]⟩
      rfl).2.2.2⟩

/-- C7: inserting a row at a key already present in a row block overwrites
the prior row's values — the lookup at that key yields the new values, the
key set is unchanged, and the block holds exactly one row for that key. -/
theorem c7_insert_overwrites {R C : Type} [DecidableEq R]
    (rb : RowBlock R C) (k : R) (v1 v2 : List DecLit)
    (hold : assocGet rb.rows k = some v1)
    (hnd : (rb.rows.map Prod.fst).Nodup) :
    assocGet (rb.insertRaw k v2).rows k = some v2 ∧
    (rb.insertRaw k v2).rows.map Prod.fst = rb.rows.map Prod.fst ∧
    ((rb.insertRaw k v2).rows.map Prod.fst).count k = 1 := by
  have hmem := assocGet_mem rb.rows k v1 hold
  have hkeys : (rb.insertRaw k v2).rows.map Prod.fst =
      rb.rows.map Prod.fst :=
    assocInsert_keys_of_mem rb.rows k v2 hmem
  refine ⟨assocGet_insert_self rb.rows k v2, hkeys, ?_⟩
  rw [hkeys]
  exact List.count_eq_one_of_mem hnd hmem

/-- C7 witness: re-inserting at grid point 7 replaces the stored row. -/
theorem c7_insert_overwrites_witness :
    assocGet ((RowBlock.insertRaw
      (⟨dofCols, [(⟨7⟩, [⟨1, 0⟩])]⟩ : RowBlock GridPointRef Dof)
      ⟨7⟩ [⟨2, 0⟩]).rows) (⟨7⟩ : GridPointRef) = some [⟨2, 0⟩] :=
  (c7_insert_overwrites
    (⟨dofCols, [(⟨7⟩, [⟨1, 0⟩])]⟩ : RowBlock GridPointRef Dof)
    ⟨7⟩ [⟨1, 0⟩] [⟨2, 0⟩] rfl (by simp)).1

/-- C10: a grid point force balance decoder under the Mystran flavour whose
current grid point is unset never responds `Data`, never inserts a row, and
keeps the grid point unset until a FORCE BALANCE FOR GRID POINT metadata line
establishes it. -/
theorem c10_gpfb_no_data_before_grid_point (d : GridPointForceBalanceDecoder)
    (line : String) (hf : d.flavour.solver = some Solver.Mystran)
    (hg : d.gpref = none) :
    (d.consume line).2 ≠ LineResponse.Data ∧
    (d.consume line).1.data = d.data ∧
    (strHas line "FORCE BALANCE FOR GRID POINT" = false →
      (d.consume line).1.gpref = none) := by
  have hfst := gpfbMystranOriginFst d line hf
  unfold GridPointForceBalanceDecoder.consume
  by_cases h1 : strHas line mystranDashes = true
  · simp [h1, hg]
  · by_cases h2 : strHas line "FORCE BALANCE FOR GRID POINT" = true
    · simp [h1, h2, hg]
    · by_cases h3 : strHas line "*TOTALS*" = true
      · simp [h1, h2, h3, hg]
      · rcases ho : d.originOf line with ⟨g, X⟩
        have hgn : g = none := by rw [ho] at hfst; simpa [hg] using hfst
        subst hgn
        cases X with
        | error e =>
          have he := gpfbKnownOriginErrUseless d line Solver.Mystran hf
            none e ho
          subst he
          simp [h1, h2, h3, ho]
        | ok fo => simp [h1, h2, h3, ho]

/-- C10 witness: before any metadata line, a Mystran origin-labelled data
line produces no row. -/
theorem c10_gpfb_no_data_before_grid_point_witness :
    ((GridPointForceBalanceDecoder.new ⟨some Solver.Mystran, none⟩).consume
      "   APPLIED FORCE    1.0 2.0 3.0 4.0 5.0 6.0").2 ≠
      LineResponse.Data :=
  (c10_gpfb_no_data_before_grid_point
    (GridPointForceBalanceDecoder.new ⟨some Solver.Mystran, none⟩)
    "   APPLIED FORCE    1.0 2.0 3.0 4.0 5.0 6.0" rfl rfl).1
